import Mathlib

/-!
Formal model of the JWT cookie-authentication core of the repository
(auth.py, crud.py, main.py).

Cookie values are Python strings that may carry an embedded compact JWS.
The cryptographic layer (PyJWT with HS256) is modelled symbolically: an
encoded token is an opaque, space-free unit of a string, carrying its
payload and the key it was signed with, and `jwt.decode` succeeds exactly
on a well-formed token signed with the presented key whose `exp` claim is
still in the future.  Time is an integer clock in seconds; a `timedelta`
is an integer number of seconds.
-/

namespace AuthJwt

/-- Characters of a plain Python string (emails, passwords, messages). -/
abbrev Chars := List Char

/-- The claims carried by a token: the dynamic dict used by the code holds
at most a `sub` entry, plus the `exp` entry added at issuance
(auth.py line 22). -/
structure Payload where
  sub : Option Chars
  exp : Int
  deriving DecidableEq

/-- One unit of a Python string in the symbolic model: an ordinary
character, or an embedded compact JWS produced by `jwt.encode` (opaque,
space-free, bound to the key it was signed with). -/
inductive Tok where
  | ch (c : Char)
  | jwt (p : Payload) (key : Chars)
  deriving DecidableEq

/-- A Python string that may carry embedded tokens (cookie values). -/
abbrev PStr := List Tok

/-- Embed a literal character string. -/
def pstr (s : String) : PStr := s.toList.map Tok.ch

/-- auth.py line 13: the hard-coded module-level secret, shadowing the
`config` import of line 5. -/
def SECRET_KEY : Chars := "YOUR_SECRET_KEY".toList

/-- The PyJWT error classes raised by `jwt.decode`; all of them are
subclasses of `jwt.PyJWTError`. -/
inductive JwtErr where
  | malformed
  | badSignature
  | expired
  deriving DecidableEq

/-- `jwt.encode(payload, key, algorithm=ALGORITHM)`: an opaque signed
string. -/
def jwtEncode (payload : Payload) (key : Chars) : PStr :=
  [Tok.jwt payload key]

/-- `jwt.decode(token, key, algorithms=[ALGORITHM])` read at time `now`:
it fails on anything that is not a single well-formed token, fails on a
key mismatch, and fails as expired exactly when `exp <= now` (PyJWT uses
`exp <= now - leeway` with zero leeway, so a token is accepted exactly
when `exp > now`). -/
def jwtDecode (token : PStr) (key : Chars) (now : Int) :
    Except JwtErr Payload :=
  match token with
  | [Tok.jwt p k] =>
    if k = key then
      if p.exp ≤ now then Except.error JwtErr.expired else Except.ok p
    else Except.error JwtErr.badSignature
  | _ => Except.error JwtErr.malformed

/-- The `data` dict passed to `create_access_token`; the code only ever
reads the `sub` entry back out of a decoded payload. -/
structure TokenData where
  sub : Option Chars
  deriving DecidableEq

/-- auth.py lines 16-23.  `expires_delta` is `None` or a `timedelta` in
seconds; the guard `if expires_delta:` is Python truthiness, so `None`
and the zero delta both select the 15-minute default. -/
def create_access_token (data : TokenData) (expires_delta : Option Int)
    (key : Chars) (now : Int) : PStr :=
  let expire : Int :=
    match expires_delta with
    | some d => if d = 0 then now + 15 * 60 else now + d
    | none => now + 15 * 60
  jwtEncode { sub := data.sub, exp := expire } key

/-- Python `value.split(" ")`: split on every single space and keep empty
segments, as `str.split` does with an explicit separator. -/
def splitSp : PStr → List PStr
  | [] => [[]]
  | t :: rest =>
    if t = Tok.ch ' ' then
      [] :: splitSp rest
    else
      match splitSp rest with
      | [] => [[t]]
      | w :: ws => (t :: w) :: ws

/-- Outcome of the token-processing block, auth.py lines 38-45. -/
inductive VOut where
  | ok (email : Chars)
  | invalidToken
  | indexError
  deriving DecidableEq

/-- auth.py lines 40-45 applied to an already extracted token string:
decode, read `payload.get("sub")`, and collapse every `jwt.PyJWTError`
and a missing subject into the `credentials_exception` outcome. -/
def validateRaw (token : PStr) (key : Chars) (now : Int) : VOut :=
  match jwtDecode token key now with
  | Except.error _ => VOut.invalidToken
  | Except.ok payload =>
    match payload.sub with
    | none => VOut.invalidToken
    | some email => VOut.ok email

/-- auth.py lines 38-45: `token.split(" ")[1]` followed by decoding.  The
indexing raises `IndexError` when the split yields fewer than two
segments, and `IndexError` is not a `jwt.PyJWTError`, so it escapes the
`except` clause. -/
def validateCookieToken (cookieVal : PStr) (key : Chars) (now : Int) :
    VOut :=
  match (splitSp cookieVal)[1]? with
  | none => VOut.indexError
  | some tok => validateRaw tok key now

/-- Modelled from the spec: the `User` rows of the store collaborator
(models.py is outside the analysed sources); the fields are exactly the
ones crud.py and main.py read and write. -/
structure User where
  username : Chars
  email : Chars
  password : Chars
  deriving DecidableEq

/-- Modelled from the spec: the user store of the collaborator contract
(`find_by_email` / `insert`), as an insertion-ordered table. -/
abbrev Db := List User

/-- crud.py lines 8-10 (`get_user_by_email`): select the first stored
user whose email matches. -/
def get_user_by_email (db : Db) (email : Chars) : Option User :=
  db.find? (fun u => u.email == email)

/-- Modelled from the spec: passlib bcrypt `hash` — a salted one-way
digest.  The salt is explicit, and the digest determines the password
only inside the model. -/
def pwd_hash (salt : Nat) (password : Chars) : Chars :=
  List.replicate salt 'a' ++ '$' :: password

/-- Modelled from the spec: passlib `verify(plaintext, stored)` — true
iff the plaintext hashes to the stored digest under the stored salt;
it never throws. -/
def pwd_verify (password stored : Chars) : Bool :=
  stored.dropWhile (fun c => c != '$') == '$' :: password

/-- crud.py lines 12-18 (`create_user`): hash, insert, commit, and return
the fresh row; the salt argument stands for passlib's random salt. -/
def create_user (db : Db) (salt : Nat) (username email password : Chars) :
    Db × User :=
  let user : User :=
    { username := username, email := email, password := pwd_hash salt password }
  (db ++ [user], user)

/-- crud.py lines 20-24 (`authenticate_user`): the row is returned
exactly when the email is found and the password verifies
(`if user and pwd_context.verify(...)`; a row object is always truthy). -/
def authenticate_user (db : Db) (email password : Chars) : Option User :=
  match get_user_by_email db email with
  | none => none
  | some user => if pwd_verify password user.password then some user else none

/-- An `HTTPException(status_code, detail, headers)` value raised by
`get_current_user`. -/
structure HttpErr where
  status : Nat
  detail : Chars
  headers : List (Chars × Chars)
  deriving DecidableEq

/-- auth.py lines 28-32. -/
def notAuthenticatedErr : HttpErr :=
  { status := 401
    detail := "Not authenticated".toList
    headers := [("WWW-Authenticate".toList, "Bearer".toList)] }

/-- auth.py lines 33-37. -/
def credentialsException : HttpErr :=
  { status := 401
    detail := "Could not validate credentials".toList
    headers := [("WWW-Authenticate".toList, "Bearer".toList)] }

/-- What one request observes from `get_current_user`. -/
inductive AuthOutcome where
  | ok (u : User)
  | httpError (e : HttpErr)
  | indexError
  deriving DecidableEq

/-- Whether the outcome is the success outcome. -/
def AuthOutcome.isOk : AuthOutcome → Bool
  | AuthOutcome.ok _ => true
  | _ => false

/-- Whether the outcome is a 401 response carrying the
`WWW-Authenticate: Bearer` challenge header. -/
def AuthOutcome.is401Challenge : AuthOutcome → Bool
  | AuthOutcome.httpError e =>
    e.status == 401 &&
      e.headers.contains ("WWW-Authenticate".toList, "Bearer".toList)
  | _ => false

/-- auth.py lines 25-49: `get_current_user` for one request, with the
cookie value, the user store, the key and the clock made explicit.
`if not token:` is Python truthiness, so an absent cookie and an empty
cookie value both yield the "Not authenticated" response. -/
def get_current_user (cookieVal : Option PStr) (db : Db) (key : Chars)
    (now : Int) : AuthOutcome :=
  match cookieVal with
  | none => AuthOutcome.httpError notAuthenticatedErr
  | some token =>
    if token = [] then AuthOutcome.httpError notAuthenticatedErr
    else
      match validateCookieToken token key now with
      | VOut.indexError => AuthOutcome.indexError
      | VOut.invalidToken => AuthOutcome.httpError credentialsException
      | VOut.ok email =>
        match get_user_by_email db email with
        | none => AuthOutcome.httpError credentialsException
        | some user => AuthOutcome.ok user

/-! ### Helper lemmas about the split, the store and the hash -/

theorem splitSp_ne_nil (s : PStr) : splitSp s ≠ [] := by
  cases s with
  | nil => simp [splitSp]
  | cons t rest =>
    simp only [splitSp]
    split
    · simp
    · split <;> simp

theorem splitSp_no_space (s : PStr) (h : Tok.ch ' ' ∉ s) : splitSp s = [s] := by
  induction s with
  | nil => rfl
  | cons t rest ih =>
    have ht : ¬ t = Tok.ch ' ' := fun he => h (by simp [he])
    have hr : Tok.ch ' ' ∉ rest := fun hm => h (by simp [hm])
    simp [splitSp, ht, ih hr]

theorem splitSp_word_space (w t : PStr) (h : Tok.ch ' ' ∉ w) :
    splitSp (w ++ Tok.ch ' ' :: t) = w :: splitSp t := by
  induction w with
  | nil => simp [splitSp]
  | cons a w ih =>
    have ha : ¬ a = Tok.ch ' ' := fun he => h (by simp [he])
    have hw : Tok.ch ' ' ∉ w := fun hm => h (by simp [hm])
    simp [splitSp, ha, ih hw]

theorem getElem0_of_ne_nil (l : List PStr) (h : l ≠ []) :
    l[0]? = some (l.headD []) := by
  cases l with
  | nil => exact absurd rfl h
  | cons a l => simp

theorem validateCookieToken_space (w t : PStr) (key : Chars) (now : Int)
    (h : Tok.ch ' ' ∉ w) :
    validateCookieToken (w ++ Tok.ch ' ' :: t) key now
      = validateRaw ((splitSp t).headD []) key now := by
  unfold validateCookieToken
  rw [splitSp_word_space w t h]
  rw [List.getElem?_cons_succ]
  rw [getElem0_of_ne_nil _ (splitSp_ne_nil t)]

theorem pstr_bearer_cons (t : PStr) :
    pstr "Bearer " ++ t = pstr "Bearer" ++ Tok.ch ' ' :: t := rfl

theorem validateCookieToken_bearer (t : PStr) (key : Chars) (now : Int) :
    validateCookieToken (pstr "Bearer " ++ t) key now
      = validateRaw ((splitSp t).headD []) key now := by
  rw [pstr_bearer_cons]
  exact validateCookieToken_space _ _ _ _ (by decide)

theorem splitSp_jwt (p : Payload) (k : Chars) :
    splitSp [Tok.jwt p k] = [[Tok.jwt p k]] :=
  splitSp_no_space _ (by simp)

theorem find?_append_none (p : User → Bool) (l1 l2 : Db)
    (h : l1.find? p = none) : (l1 ++ l2).find? p = l2.find? p := by
  induction l1 with
  | nil => rfl
  | cons a l ih =>
    cases hpa : p a with
    | true => simp [List.find?_cons, hpa] at h
    | false =>
      rw [List.find?_cons, hpa] at h
      rw [List.cons_append, List.find?_cons, hpa]
      exact ih h

theorem get_user_by_email_insert (db : Db) (u : User)
    (h : get_user_by_email db u.email = none) :
    get_user_by_email (db ++ [u]) u.email = some u := by
  unfold get_user_by_email at h ⊢
  rw [find?_append_none _ _ _ h]
  simp [List.find?_cons]

theorem dropWhile_pwd_hash (salt : Nat) (password : Chars) :
    (pwd_hash salt password).dropWhile (fun c => c != '$')
      = '$' :: password := by
  induction salt with
  | zero => simp [pwd_hash, List.dropWhile]
  | succ n ih =>
    show List.dropWhile _ ('a' :: pwd_hash n password) = _
    rw [List.dropWhile_cons]
    simpa using ih

theorem pwd_verify_hash_self (salt : Nat) (password : Chars) :
    pwd_verify password (pwd_hash salt password) = true := by
  unfold pwd_verify
  rw [dropWhile_pwd_hash]
  simp

theorem pwd_verify_hash_ne (salt : Nat) (password candidate : Chars)
    (h : candidate ≠ password) :
    pwd_verify candidate (pwd_hash salt password) = false := by
  unfold pwd_verify
  rw [dropWhile_pwd_hash]
  simp [Ne.symm h]

/-! ### Claim C1 -/

/-- C1, counterexample: the cookie value "sometoken" carries no
well-formed "Bearer " prefix (it has no space at all), yet token
validation does not produce the InvalidTokenError outcome: the
`split(" ")[1]` indexing raises an uncaught IndexError. -/
theorem C1_cex :
    validateCookieToken (pstr "sometoken") SECRET_KEY 0 = VOut.indexError ∧
    validateCookieToken (pstr "sometoken") SECRET_KEY 0 ≠ VOut.invalidToken := by
  decide

/-- C1, amended: the prefix word of the cookie value is never compared to
"Bearer".  A cookie value containing no space makes validation end in an
uncaught IndexError, never in the InvalidTokenError outcome; a value
containing a space is processed with its second space-separated segment
as the token, whatever the leading word is. -/
theorem C1_thm :
    (∀ (t : PStr) (key : Chars) (now : Int), Tok.ch ' ' ∉ t →
      validateCookieToken t key now = VOut.indexError) ∧
    (∀ (w rest : PStr) (key : Chars) (now : Int), Tok.ch ' ' ∉ w →
      validateCookieToken (w ++ Tok.ch ' ' :: rest) key now
        = validateRaw ((splitSp rest).headD []) key now) := by
  constructor
  · intro t key now h
    unfold validateCookieToken
    rw [splitSp_no_space t h]
    rfl
  · intro w rest key now h
    exact validateCookieToken_space w rest key now h

/-- C1, witness for the amended claim at concrete inputs. -/
theorem C1_witness :
    validateCookieToken (pstr "raw.jwt.value") SECRET_KEY 7 = VOut.indexError ∧
    validateCookieToken (pstr "Basic" ++ Tok.ch ' ' :: pstr "x") SECRET_KEY 7
      = validateRaw ((splitSp (pstr "x")).headD []) SECRET_KEY 7 :=
  ⟨C1_thm.1 (pstr "raw.jwt.value") SECRET_KEY 7 (by decide),
   C1_thm.2 (pstr "Basic") (pstr "x") SECRET_KEY 7 (by decide)⟩

/-! ### Claim C2 -/

/-- C2, counterexample: with an empty secret key, `create_access_token`
does not fail with any ConfigurationError — it succeeds and returns a
token signed with the empty key.  No such error class exists anywhere in
the code. -/
theorem C2_cex :
    create_access_token { sub := some ("a@x.com".toList) } none [] 0
      = [Tok.jwt { sub := some ("a@x.com".toList), exp := 900 } []] := by
  decide

/-- C2, amended: the secret key is hard-coded at module level to the
non-empty constant "YOUR_SECRET_KEY", and `create_access_token` performs
no key check at all: issuance always succeeds and returns a token signed
with whatever key is in scope, even the empty one. -/
theorem C2_thm :
    SECRET_KEY = "YOUR_SECRET_KEY".toList ∧ SECRET_KEY.length = 15 ∧
    (∀ (data : TokenData) (d : Option Int) (key : Chars) (now : Int),
      ∃ p : Payload, create_access_token data d key now = [Tok.jwt p key]) := by
  refine ⟨rfl, by decide, ?_⟩
  intro data d key now
  exact ⟨_, rfl⟩

/-! ### Claim C4 -/

/-- C4: for every subject `s` and every positive ttl, validating a token
produced by `create_access_token` with subject `s` immediately after
issuance, with the same secret key and the "Bearer " transport prefix
attached, succeeds and yields the subject `s`. -/
theorem C4_thm (s key : Chars) (ttl now : Int) (h : 0 < ttl) :
    validateCookieToken
      (pstr "Bearer " ++ create_access_token { sub := some s } (some ttl) key now)
      key now = VOut.ok s := by
  have httl : ttl ≠ 0 := by omega
  have hexp : ¬ ((now + ttl : Int) ≤ now) := by omega
  show validateCookieToken
    (pstr "Bearer " ++
      jwtEncode { sub := some s, exp := if ttl = 0 then now + 15 * 60 else now + ttl } key)
    key now = VOut.ok s
  rw [if_neg httl, validateCookieToken_bearer, jwtEncode, splitSp_jwt]
  simp [validateRaw, jwtDecode, hexp]

/-- C4, witness at concrete inputs. -/
theorem C4_witness :
    validateCookieToken
      (pstr "Bearer " ++
        create_access_token { sub := some ("a@x.com".toList) } (some 60) SECRET_KEY 0)
      SECRET_KEY 0 = VOut.ok ("a@x.com".toList) :=
  C4_thm ("a@x.com".toList) SECRET_KEY 60 0 (by decide)

/-! ### Claim C5 -/

/-- C5, counterexample: with ttl = 0, the falsy `if expires_delta:` guard
selects the 15-minute default, so one second after issuance — which is
more than the requested ttl — validation still succeeds. -/
theorem C5_cex :
    validateCookieToken
      (pstr "Bearer " ++
        create_access_token { sub := some ("a@x.com".toList) } (some 0) SECRET_KEY 0)
      SECRET_KEY 1 = VOut.ok ("a@x.com".toList) ∧
    validateCookieToken
      (pstr "Bearer " ++
        create_access_token { sub := some ("a@x.com".toList) } (some 0) SECRET_KEY 0)
      SECRET_KEY 1 ≠ VOut.invalidToken := by
  decide

/-- C5, amended: for every subject and every non-zero ttl, once more than
ttl has elapsed since issuance the token fails validation with the
InvalidTokenError outcome.  Validation consults only the clock, the key
and the token itself — no server-side record exists in the model. -/
theorem C5_thm (s key : Chars) (ttl now t : Int) (h0 : ttl ≠ 0)
    (h : now + ttl < t) :
    validateCookieToken
      (pstr "Bearer " ++ create_access_token { sub := some s } (some ttl) key now)
      key t = VOut.invalidToken := by
  have hexp : (now + ttl : Int) ≤ t := le_of_lt h
  show validateCookieToken
    (pstr "Bearer " ++
      jwtEncode { sub := some s, exp := if ttl = 0 then now + 15 * 60 else now + ttl } key)
    key t = VOut.invalidToken
  rw [if_neg h0, validateCookieToken_bearer, jwtEncode, splitSp_jwt]
  simp [validateRaw, jwtDecode, hexp]

/-- C5, witness at concrete inputs. -/
theorem C5_witness :
    validateCookieToken
      (pstr "Bearer " ++
        create_access_token { sub := some ("a@x.com".toList) } (some 60) SECRET_KEY 0)
      SECRET_KEY 61 = VOut.invalidToken :=
  C5_thm ("a@x.com".toList) SECRET_KEY 60 0 61 (by decide) (by decide)

/-! ### Claim C6 -/

/-- C6, counterexample: a token whose decoded payload has the empty
string as its `sub` claim passes validation with the empty subject — the
code only checks `payload.get("sub") is None`, so the claimed
non-emptiness requirement does not exist. -/
theorem C6_cex :
    validateCookieToken
      (pstr "Bearer " ++ jwtEncode { sub := some [], exp := 900 } SECRET_KEY)
      SECRET_KEY 0 = VOut.ok [] ∧
    validateCookieToken
      (pstr "Bearer " ++ jwtEncode { sub := some [], exp := 900 } SECRET_KEY)
      SECRET_KEY 0 ≠ VOut.invalidToken := by
  decide

/-- C6, amended: validation requires only that the `sub` claim be present
(not `None`): every token without a `sub` claim fails with the
InvalidTokenError outcome, while an unexpired token whose `sub` is the
empty string passes validation and yields the empty subject. -/
theorem C6_thm :
    (∀ (p : Payload) (key : Chars) (now : Int), p.sub = none →
      validateCookieToken (pstr "Bearer " ++ jwtEncode p key) key now
        = VOut.invalidToken) ∧
    (∀ (key : Chars) (now expiry : Int), now < expiry →
      validateCookieToken
        (pstr "Bearer " ++ jwtEncode { sub := some [], exp := expiry } key)
        key now = VOut.ok []) := by
  constructor
  · intro p key now hs
    rw [validateCookieToken_bearer, jwtEncode, splitSp_jwt]
    by_cases hexp : p.exp ≤ now <;> simp [validateRaw, jwtDecode, hexp, hs]
  · intro key now expiry h
    have hexp : ¬ ((expiry : Int) ≤ now) := by omega
    rw [validateCookieToken_bearer, jwtEncode, splitSp_jwt]
    simp [validateRaw, jwtDecode, hexp]

/-- C6, witness for the amended claim at concrete inputs. -/
theorem C6_witness :
    validateCookieToken
      (pstr "Bearer " ++ jwtEncode { sub := none, exp := 900 } SECRET_KEY)
      SECRET_KEY 0 = VOut.invalidToken ∧
    validateCookieToken
      (pstr "Bearer " ++ jwtEncode { sub := some [], exp := 900 } SECRET_KEY)
      SECRET_KEY 10 = VOut.ok [] :=
  ⟨C6_thm.1 { sub := none, exp := 900 } SECRET_KEY 0 rfl,
   C6_thm.2 SECRET_KEY 10 900 (by decide)⟩

/-! ### Claim C8 -/

/-- C8: when `create_access_token` is called without an `expires_delta`
argument, the issued token's `exp` claim is the issuance time plus
15 minutes (15 * 60 seconds). -/
theorem C8_thm (data : TokenData) (key : Chars) (now : Int) :
    create_access_token data none key now
      = jwtEncode { sub := data.sub, exp := now + 15 * 60 } key := rfl

/-! ### Claim C10 -/

/-- C10: an `expires_delta` equal to the zero duration is falsy under the
`if expires_delta:` guard, so the call behaves identically to omitting
the argument: the `exp` claim is the issuance time plus the 15-minute
default, not an already-expired instant. -/
theorem C10_thm (data : TokenData) (key : Chars) (now : Int) :
    create_access_token data (some 0) key now
      = create_access_token data none key now ∧
    create_access_token data (some 0) key now
      = jwtEncode { sub := data.sub, exp := now + 15 * 60 } key := by
  constructor <;> simp [create_access_token]

/-! ### Claim C3 -/

/-- C3, counterexample: a non-empty cookie value with no space is a
failure branch of `get_current_user` that terminates with an uncaught
IndexError — neither a success nor a 401 response with the
`WWW-Authenticate: Bearer` challenge. -/
theorem C3_cex :
    get_current_user (some (pstr "justonechunk")) [] SECRET_KEY 0
      = AuthOutcome.indexError ∧
    AuthOutcome.isOk
      (get_current_user (some (pstr "justonechunk")) [] SECRET_KEY 0) = false ∧
    AuthOutcome.is401Challenge
      (get_current_user (some (pstr "justonechunk")) [] SECRET_KEY 0) = false := by
  decide

/-- C3, amended: every HTTPException failure branch of `get_current_user`
carries status 401 with the `WWW-Authenticate: Bearer` header; a missing
cookie yields "Not authenticated", while token-validation failure and
subject-not-found both yield the identical "Could not validate
credentials" response.  A non-empty cookie value with no space, however,
terminates with an uncaught IndexError instead of a 401. -/
theorem C3_thm :
    (∀ (cookieVal : Option PStr) (db : Db) (key : Chars) (now : Int) (e : HttpErr),
      get_current_user cookieVal db key now = AuthOutcome.httpError e →
      e.status = 401 ∧
      e.headers = [("WWW-Authenticate".toList, "Bearer".toList)] ∧
      (e.detail = "Not authenticated".toList ∨
       e.detail = "Could not validate credentials".toList)) ∧
    (∀ (db : Db) (key : Chars) (now : Int),
      get_current_user none db key now
        = AuthOutcome.httpError notAuthenticatedErr) ∧
    (∀ (t : PStr) (db : Db) (key : Chars) (now : Int), t ≠ [] →
      validateCookieToken t key now = VOut.invalidToken →
      get_current_user (some t) db key now
        = AuthOutcome.httpError credentialsException) ∧
    (∀ (t : PStr) (s : Chars) (db : Db) (key : Chars) (now : Int), t ≠ [] →
      validateCookieToken t key now = VOut.ok s →
      get_user_by_email db s = none →
      get_current_user (some t) db key now
        = AuthOutcome.httpError credentialsException) := by
  refine ⟨?_, ?_, ?_, ?_⟩
  · intro cookieVal db key now e h
    cases cookieVal with
    | none =>
      simp [get_current_user] at h
      subst h
      exact ⟨rfl, rfl, Or.inl rfl⟩
    | some t =>
      by_cases ht : t = []
      · simp [get_current_user, ht] at h
        subst h
        exact ⟨rfl, rfl, Or.inl rfl⟩
      · cases hv : validateCookieToken t key now with
        | indexError => simp [get_current_user, ht, hv] at h
        | invalidToken =>
          simp [get_current_user, ht, hv] at h
          subst h
          exact ⟨rfl, rfl, Or.inr rfl⟩
        | ok email =>
          cases hl : get_user_by_email db email with
          | none =>
            simp [get_current_user, ht, hv, hl] at h
            subst h
            exact ⟨rfl, rfl, Or.inr rfl⟩
          | some u => simp [get_current_user, ht, hv, hl] at h
  · intro db key now
    rfl
  · intro t db key now ht hv
    simp [get_current_user, ht, hv]
  · intro t s db key now ht hv hl
    simp [get_current_user, ht, hv, hl]

/-- C3, witness for the amended claim at concrete inputs. -/
theorem C3_witness :
    get_current_user (some (pstr "Bearer bad")) [] SECRET_KEY 0
      = AuthOutcome.httpError credentialsException :=
  C3_thm.2.2.1 (pstr "Bearer bad") [] SECRET_KEY 0 (by decide) (by decide)

/-! ### Claim C7 -/

/-- C7: `authenticate_user` returns the stored user exactly when the
email is found in the store and the password verifies against the stored
hash; in particular, after registering a fresh user with password p1,
authenticating with a different password returns None and authenticating
with p1 returns that user. -/
theorem C7_thm :
    (∀ (db : Db) (email password : Chars) (u : User),
      authenticate_user db email password = some u ↔
        get_user_by_email db email = some u ∧
        pwd_verify password u.password = true) ∧
    (∀ (db : Db) (salt : Nat) (username email p1 p2 : Chars),
      get_user_by_email db email = none → p2 ≠ p1 →
      authenticate_user (create_user db salt username email p1).1 email p2
          = none ∧
      authenticate_user (create_user db salt username email p1).1 email p1
          = some (create_user db salt username email p1).2) := by
  constructor
  · intro db email password u
    unfold authenticate_user
    cases hl : get_user_by_email db email with
    | none => simp
    | some v =>
      cases hv : pwd_verify password v.password with
      | true =>
        simp only [hv, if_true]
        constructor
        · intro h
          cases h
          exact ⟨rfl, hv⟩
        · intro h
          cases h.1
          rfl
      | false =>
        simp only [hv, if_false, Bool.false_eq_true]
        constructor
        · intro h
          simp at h
        · intro h
          cases h.1
          rw [hv] at h
          exact absurd h.2 (by simp)
  · intro db salt username email p1 p2 hnone hne
    have hins :
        get_user_by_email (db ++ [⟨username, email, pwd_hash salt p1⟩]) email
          = some ⟨username, email, pwd_hash salt p1⟩ :=
      get_user_by_email_insert db ⟨username, email, pwd_hash salt p1⟩ hnone
    constructor
    · show authenticate_user (db ++ [⟨username, email, pwd_hash salt p1⟩]) email p2 = none
      unfold authenticate_user
      rw [hins]
      simp [pwd_verify_hash_ne salt p1 p2 hne]
    · show authenticate_user (db ++ [⟨username, email, pwd_hash salt p1⟩]) email p1
        = some ⟨username, email, pwd_hash salt p1⟩
      unfold authenticate_user
      rw [hins]
      simp [pwd_verify_hash_self salt p1]

/-- C7, witness: the register-then-authenticate scenario from the spec at
concrete inputs. -/
theorem C7_witness :
    authenticate_user
        (create_user [] 3 ("bob".toList) ("b@x.com".toList) ("pw1".toList)).1
        ("b@x.com".toList) ("wrong".toList) = none ∧
    authenticate_user
        (create_user [] 3 ("bob".toList) ("b@x.com".toList) ("pw1".toList)).1
        ("b@x.com".toList) ("pw1".toList)
      = some (create_user [] 3 ("bob".toList) ("b@x.com".toList) ("pw1".toList)).2 :=
  C7_thm.2 [] 3 ("bob".toList) ("b@x.com".toList) ("pw1".toList) ("wrong".toList)
    (by decide) (by decide)

/-! ### Claim C9 -/

/-- C9: the leading word of the cookie value is never compared to the
literal "Bearer": for every space-free word w, a cookie of the form
"w token" is validated exactly as "Bearer token" would be, and a valid
token carried behind an arbitrary prefix word still authenticates its
user. -/
theorem C9_thm :
    (∀ (w t : PStr) (key : Chars) (now : Int), Tok.ch ' ' ∉ w →
      validateCookieToken (w ++ Tok.ch ' ' :: t) key now
        = validateCookieToken (pstr "Bearer" ++ Tok.ch ' ' :: t) key now) ∧
    (∀ (w : PStr) (s key : Chars) (ttl now : Int) (db : Db) (u : User),
      Tok.ch ' ' ∉ w → 0 < ttl → get_user_by_email db s = some u →
      get_current_user
        (some (w ++ Tok.ch ' ' ::
          create_access_token { sub := some s } (some ttl) key now))
        db key now = AuthOutcome.ok u) := by
  constructor
  · intro w t key now h
    rw [validateCookieToken_space w t key now h,
        validateCookieToken_space (pstr "Bearer") t key now (by decide)]
  · intro w s key ttl now db u hw httl hu
    have h0 : ttl ≠ 0 := by omega
    have hexp : ¬ ((now + ttl : Int) ≤ now) := by omega
    have hne : w ++ Tok.ch ' ' ::
        create_access_token { sub := some s } (some ttl) key now ≠ [] := by
      cases w <;> simp
    have hv : validateCookieToken
        (w ++ Tok.ch ' ' ::
          create_access_token { sub := some s } (some ttl) key now)
        key now = VOut.ok s := by
      rw [validateCookieToken_space w _ key now hw]
      show validateRaw
        ((splitSp (jwtEncode
          { sub := some s, exp := if ttl = 0 then now + 15 * 60 else now + ttl }
          key)).headD []) key now = VOut.ok s
      rw [if_neg h0, jwtEncode, splitSp_jwt]
      simp [validateRaw, jwtDecode, hexp]
    simp [get_current_user, hne, hv, hu]

/-- C9, witness at concrete inputs: the prefix word "Token" validates
like "Bearer", and a fresh token behind the prefix word "Whatever"
authenticates the stored user. -/
theorem C9_witness :
    validateCookieToken (pstr "Token" ++ Tok.ch ' ' :: pstr "zzz") SECRET_KEY 4
      = validateCookieToken (pstr "Bearer" ++ Tok.ch ' ' :: pstr "zzz") SECRET_KEY 4 ∧
    get_current_user
      (some (pstr "Whatever" ++ Tok.ch ' ' ::
        create_access_token { sub := some ("b@x.com".toList) } (some 120) SECRET_KEY 50))
      [⟨"bob".toList, "b@x.com".toList, "h".toList⟩] SECRET_KEY 50
      = AuthOutcome.ok ⟨"bob".toList, "b@x.com".toList, "h".toList⟩ :=
  ⟨C9_thm.1 (pstr "Token") (pstr "zzz") SECRET_KEY 4 (by decide),
   C9_thm.2 (pstr "Whatever") ("b@x.com".toList) SECRET_KEY 120 50
     [⟨"bob".toList, "b@x.com".toList, "h".toList⟩]
     ⟨"bob".toList, "b@x.com".toList, "h".toList⟩
     (by decide) (by decide) (by decide)⟩

end AuthJwt
